import Mathlib

/-!
Verification of the pagination and query-state reconciliation core of the
cocktail-browser repository (React client `src/pages/Home.tsx`,
service layer `src/services`, Express proxy `server/index.js`).

The TypeScript sources are shallowly embedded below: React component state
becomes an explicit state record, event handlers and effects become state
transformers, promise settlement becomes explicit application of a fetch
outcome, and the JS semantics that matter (string `trim`, truthiness of
optional fields, `undefined > n` being false, `Array.prototype.slice`
clamping) are modelled by dedicated functions.
-/

namespace Cocktails

/-! ### JS string trim

`String.prototype.trim` removes whitespace from both ends of a string.
We embed it over the character list of the string, using
`Char.isWhitespace` for the whitespace class. -/

/-- Embedding of JS `String.prototype.trim`: drop whitespace at both ends. -/
def jsTrim (s : String) : String :=
  ⟨((s.data.dropWhile Char.isWhitespace).reverse.dropWhile Char.isWhitespace).reverse⟩

theorem dropWhile_dropWhile_eq (p : α → Bool) (l : List α) :
    (l.dropWhile p).dropWhile p = l.dropWhile p := by
  induction l with
  | nil => rfl
  | cons a t ih =>
    by_cases h : p a
    · simpa [List.dropWhile_cons_of_pos h] using ih
    · simp [List.dropWhile_cons_of_neg h, h]

theorem getLast?_dropWhile_of_ne_nil (p : α → Bool) (l : List α)
    (h : l.dropWhile p ≠ []) : (l.dropWhile p).getLast? = l.getLast? := by
  induction l with
  | nil => simp at h
  | cons a t ih =>
    by_cases hp : p a
    · rw [List.dropWhile_cons_of_pos hp] at h ⊢
      rcases ht : t with _ | ⟨b, u⟩
      · subst ht; simp [List.dropWhile_nil] at h
      · subst ht
        rw [ih h, List.getLast?_cons_cons]
    · rw [List.dropWhile_cons_of_neg hp]

theorem head?_dropWhile_false (p : α → Bool) (l : List α) :
    ∀ a, (l.dropWhile p).head? = some a → p a = false := by
  intro a ha
  have h := List.head?_dropWhile_not p l
  rw [ha] at h
  exact h

theorem dropWhile_eq_self_of_head? (p : α → Bool) (l : List α)
    (h : ∀ a, l.head? = some a → p a = false) : l.dropWhile p = l := by
  cases l with
  | nil => rfl
  | cons a t =>
    have := h a rfl
    simp [List.dropWhile_cons, this]

/-- JS trim is idempotent: trimming a trimmed string changes nothing. -/
theorem jsTrim_jsTrim (s : String) : jsTrim (jsTrim s) = jsTrim s := by
  unfold jsTrim
  set p := Char.isWhitespace with hp
  set t := s.data.dropWhile p with ht
  set w := t.reverse.dropWhile p with hw
  have hdata : (String.mk w.reverse).data = w.reverse := rfl
  rw [hdata]
  have h1 : w.reverse.dropWhile p = w.reverse := by
    apply dropWhile_eq_self_of_head? p
    intro a ha
    rw [List.head?_reverse] at ha
    by_cases hwnil : w = []
    · rw [hwnil] at ha; simp at ha
    · rw [hw, getLast?_dropWhile_of_ne_nil p t.reverse (hw ▸ hwnil)] at ha
      rw [List.getLast?_reverse] at ha
      exact head?_dropWhile_false p s.data a (ht ▸ ha)
  rw [h1, List.reverse_reverse]
  have h2 : List.dropWhile p w = w := by
    rw [hw]
    exact dropWhile_dropWhile_eq p t.reverse
  rw [h2]

/-! ### Data model

Shapes taken from `src/services/types.ts` and the §6 envelope: a list
response carries a `drinks` array plus pagination metadata.  `drinks`,
`totalCount` and `pagination` are modelled as optional because the client
code guards on their presence (`if (results.drinks)`,
`results.pagination?.hasMore`), and the collaborator contract marks
`totalCount`/`pagination` optional.  Items are opaque records: only
identity and count matter to the pagination core, so we keep an id and a
name and elide the other reshaped fields. -/

/-- A cocktail record as normalized by the service layer. -/
structure Record where
  id : Int
  name : String
deriving DecidableEq, Repr

/-- The `pagination` block of a list response (`PaginatedResponse` in
`types.ts`; produced by the proxy in `server/index.js`). -/
structure PaginationBlock where
  currentPage : Int
  totalPages : Int
  pageSize : Int
  startIndex : Int
  endIndex : Int
  hasMore : Bool
deriving DecidableEq, Repr

/-- A list response as consumed by `Home.tsx`s fetch effect.  A JS field
that may be `undefined` is an `Option`; note that in JS an empty array is
truthy, so `drinks = some []` passes the `if (results.drinks)` guard. -/
structure FilteredResponse where
  drinks : Option (List Record)
  totalCount : Option Int
  pagination : Option PaginationBlock
deriving DecidableEq, Repr

/-! ### Home component state (`src/pages/Home.tsx`)

Each `useState` hook of the component becomes a field.  `totalCount` is
`Option Int` because `setTotalCount(results.totalCount)` stores whatever
the response carried, including `undefined`.  `urlParams` mirrors the URL
search parameters managed through `useSearchParams`. -/

/-- The state of the `Home` component: one field per `useState` hook plus
the URL search params. -/
structure HomeState where
  query : String
  displayValue : String
  cocktails : List Record
  index : Int
  limit : Int
  loading : Bool
  isSearching : Bool
  isDefaultView : Bool
  totalCount : Option Int
  hasMore : Bool
  activeFilter : Option String
  filterLabel : String
  urlParams : List (String × String)
deriving DecidableEq, Repr

/-- Lookup of a URL search parameter (`searchParams.get(k)`). -/
def getParam (ps : List (String × String)) (k : String) : Option String :=
  (ps.find? (fun kv => kv.1 == k)).map (fun kv => kv.2)

/-- Initial hook values of `Home` (lines 39-50 of `Home.tsx`):
`displayValue` is seeded from the `q` URL parameter, `limit` is fixed at
10, `totalCount` starts at 0, `hasMore` at `true`. -/
def initialState (params : List (String × String)) : HomeState :=
  { query := ""
    displayValue := (getParam params "q").getD ""
    cocktails := []
    index := 0
    limit := 10
    loading := false
    isSearching := false
    isDefaultView := true
    totalCount := some 0
    hasMore := true
    activeFilter := none
    filterLabel := "All Drinks"
    urlParams := params }

/-- Embedding of `handleSearch` (Home.tsx lines 57-69): trims the input, resets the
page index to 0, clears the displayed list, mirrors a non-empty term into
the URL as `q` (and removes the parameter for an empty term).  It does
not touch `activeFilter`. -/
def handleSearch (s : HomeState) (value : String) : HomeState :=
  let searchTerm := jsTrim value
  { s with
    isSearching := true
    cocktails := []
    displayValue := searchTerm
    query := searchTerm
    isDefaultView := searchTerm = ""
    index := 0
    urlParams := if searchTerm = "" then [] else [("q", searchTerm)] }

/-- Filter category list from `filterService.ts`. -/
structure FilterCategory where
  label : String
  endpoint : String
deriving DecidableEq, Repr

/-- The `FILTER_CATEGORIES` constant of `filterService.ts`. -/
def FILTER_CATEGORIES : List FilterCategory :=
  [ { label := "All Drinks", endpoint := "search" }
  , { label := "Alcoholic", endpoint := "filter/alcoholic" }
  , { label := "Non-Alcoholic", endpoint := "filter/non-alcoholic" }
  , { label := "Ordinary Drinks", endpoint := "filter/ordinary-drink" }
  , { label := "Cocktails", endpoint := "filter/cocktail" } ]

/-- Embedding of `handleFilterChange` (Home.tsx lines 130-145): installs the filter
endpoint, resets the page index, clears the search text and removes all
URL parameters. -/
def handleFilterChange (s : HomeState) (endpoint : Option String) : HomeState :=
  let selected := FILTER_CATEGORIES.find? (fun f => some f.endpoint == endpoint)
  { s with
    activeFilter := endpoint
    index := 0
    isDefaultView := false
    filterLabel := (selected.map (fun f => f.label)).getD "All Drinks"
    displayValue := ""
    query := ""
    urlParams := [] }

/-- A click on the Next button: the raw handler is
`onNext={() => setIndex(index + limit)}` (Home.tsx line 191), and the
button is rendered with `disabled={!hasMore}` (`Pagination.tsx` line 57),
so the handler can only fire while `hasMore` holds. -/
def stepNext (s : HomeState) : HomeState :=
  if s.hasMore then { s with index := s.index + s.limit } else s

/-- A click on the Previous button: the raw handler is
`onPrevious={() => setIndex(Math.max(0, index - limit))}` (Home.tsx line
192), and the button is rendered with `disabled={index === 0}`
(`Pagination.tsx` line 50). -/
def stepPrev (s : HomeState) : HomeState :=
  if s.index = 0 then s else { s with index := max 0 (s.index - s.limit) }

/-- The start of the fetch effect `getCocktails` (Home.tsx lines 93-94):
`setLoading(true); setCocktails([])`. -/
def fetchStart (s : HomeState) : HomeState :=
  { s with loading := true, cocktails := [] }

/-- How one issued fetch settles: the promise resolves with a response or
rejects. -/
inductive FetchOutcome
  | success (r : FilteredResponse)
  | failure
deriving DecidableEq, Repr

/-- Settlement of the fetch effect (Home.tsx lines 104-115).  On success
with a present `drinks` field the response is committed:
`setCocktails(results.drinks)`, `setTotalCount(results.totalCount)`,
`setHasMore(results.pagination?.hasMore || false)`.  On failure the catch
block runs `setCocktails([])`.  The finally block clears the loading
flags.  There is no generation check: every settled outcome is applied. -/
def applySettled (s : HomeState) (o : FetchOutcome) : HomeState :=
  let s1 :=
    match o with
    | .success r =>
      match r.drinks with
      | some ds =>
        { s with
          cocktails := ds
          totalCount := r.totalCount
          hasMore := (r.pagination.map (fun p : PaginationBlock => p.hasMore)).getD false }
      | none => s
    | .failure => { s with cocktails := [] }
  { s1 with loading := false, isSearching := false }

/-- JS comparison `o > b` where `o : number | undefined`: comparison with
`undefined` is false. -/
def jsGtOptInt (o : Option Int) (b : Int) : Bool :=
  match o with
  | some a => decide (b < a)
  | none => false

/-- Embedding of `showPagination` (Home.tsx line 124):
`cocktails.length > 0 && totalCount > limit`. -/
def showPagination (s : HomeState) : Bool :=
  decide (0 < s.cocktails.length) && jsGtOptInt s.totalCount s.limit

/-- The mount effect of `Home` (lines 75-85): if the URL carries a truthy
`q` parameter it replays `handleSearch` on it and leaves the default
view, otherwise it shows the default view with an empty query. -/
def mountEffect (s : HomeState) : HomeState :=
  match getParam s.urlParams "q" with
  | some q =>
    if q = "" then { s with isDefaultView := true, query := "" }
    else { handleSearch s q with isDefaultView := false }
  | none => { s with isDefaultView := true, query := "" }

/-- Decoding a URL: constructing the component over the given search
params and running the mount effect. -/
def decode (params : List (String × String)) : HomeState :=
  mountEffect (initialState params)

/-- The view-query part of the component state: the free text, the
category filter and the page offset (the spec ViewQuery; `Home` has no
letter state). -/
structure ViewQuery where
  freeText : String
  categoryFilter : Option String
  offset : Int
deriving DecidableEq, Repr

/-- Projection of the component state onto its view query. -/
def HomeState.viewQuery (s : HomeState) : ViewQuery :=
  { freeText := s.query, categoryFilter := s.activeFilter, offset := s.index }

/-- States reachable by the component: a mount on some URL followed by
any sequence of user transitions, fetch starts and fetch settlements. -/
inductive Reachable : HomeState → Prop
  | mount (params : List (String × String)) : Reachable (decode params)
  | search (s : HomeState) (v : String) :
      Reachable s → Reachable (handleSearch s v)
  | filter (s : HomeState) (e : Option String) :
      Reachable s → Reachable (handleFilterChange s e)
  | next (s : HomeState) : Reachable s → Reachable (stepNext s)
  | prev (s : HomeState) : Reachable s → Reachable (stepPrev s)
  | fetchStarted (s : HomeState) : Reachable s → Reachable (fetchStart s)
  | settled (s : HomeState) (o : FetchOutcome) :
      Reachable s → Reachable (applySettled s o)

/-- The draft `Home` (unnamed draft file, Pagination prop at line 156)
passes `hasMore={cocktails.length >= limit}`: it infers `hasMore` from
the displayed item count. -/
def draftHasMore (cocktails : List Record) (limit : Int) : Bool :=
  decide (limit ≤ (cocktails.length : Int))

/-! ### Service layer (`src/services/api/apiService.ts`,
`src/services/cocktails/cocktailService.ts`)

`buildUrl` appends the defined parameters in source order (query,
firstLetter, index, limit); a falsy string parameter is skipped, a
numeric parameter is emitted whenever defined (`typeof === "number"`
includes 0).  URL percent-encoding is elided: the values the claims
evaluate are plain alphanumerics, which encode to themselves. -/

/-- The `SearchParams` shape of `types.ts`: every field optional. -/
structure SearchParams where
  query : Option String := none
  firstLetter : Option String := none
  index : Option Int := none
  limit : Option Int := none
deriving DecidableEq, Repr

/-- The parameter pairs appended by `buildUrl`, in source order. -/
def buildUrlPairs (p : SearchParams) : List (String × String) :=
  (match p.query with
   | some q => if q = "" then [] else [("query", q)]
   | none => []) ++
  (match p.firstLetter with
   | some f => if f = "" then [] else [("firstLetter", f)]
   | none => []) ++
  (match p.index with
   | some i => [("index", toString i)]
   | none => []) ++
  (match p.limit with
   | some l => [("limit", toString l)]
   | none => [])

/-- The query string assembled by `buildUrl`. -/
def buildQueryString (p : SearchParams) : String :=
  String.intercalate "&" ((buildUrlPairs p).map (fun kv => kv.1 ++ "=" ++ kv.2))

/-- Embedding of `buildUrl` from `apiService.ts`. -/
def buildUrl (baseUrl : String) (p : SearchParams) : String :=
  if buildQueryString p = "" then baseUrl
  else baseUrl ++ "?" ++ buildQueryString p

/-- The `API_BASE_URL` constant of the service layer. -/
def apiBaseUrl : String := "http://localhost:4000/api"

/-- Embedding of `fetchCocktailsByLetter` (`cocktailService.ts` lines
126-144) up to the point where the network request is issued: a
non-single-character letter throws the validation error before any
request exists; otherwise the function issues exactly one request, whose
URL we return. -/
def fetchCocktailsByLetter (letter : String) (index limit : Int) :
    Except String String :=
  if letter.length ≠ 1 then
    .error "Letter parameter must be a single character"
  else
    .ok (buildUrl (apiBaseUrl ++ "/search/letter")
      { firstLetter := some letter.toLower, index := some index, limit := some limit })

/-- The network requests issued by one `fetchCocktailsByLetter` call: none
when validation rejects, exactly the built URL otherwise. -/
def letterNetworkCalls (letter : String) (index limit : Int) : List String :=
  match fetchCocktailsByLetter letter index limit with
  | .error _ => []
  | .ok u => [u]

/-- How the upstream answer of one detail lookup presents to the client:
a parsed body, a non-ok HTTP status (on which `fetchFromApi` throws
`HTTP error! status: ...`), or a network failure. -/
inductive ApiAnswer (α : Type)
  | ok (data : α)
  | httpError (status : Int)
  | networkFailure (msg : String)
deriving DecidableEq, Repr

/-- The error conditions a service call can surface, one constructor per
throw site: `fetchFailed` for the transport/status errors thrown inside
`fetchFromApi`, `notFound` for the `Cocktail with ID ... not found` error
thrown by `fetchCocktailById` on a null `drink`. -/
inductive ServiceError
  | fetchFailed (msg : String)
  | notFound (msg : String)
deriving DecidableEq, Repr

/-- The `{ drink: Record | null }` detail envelope. -/
structure CocktailDetailsResponse where
  drink : Option Record
deriving DecidableEq, Repr

/-- Embedding of `fetchCocktailById` (`cocktailService.ts` lines 193-206)
applied to a settled upstream answer: a well-formed response with a null
`drink` raises the not-found error carrying the id; transport errors
from `fetchFromApi` are re-thrown unchanged. -/
def fetchCocktailById (id : Int) (upstream : ApiAnswer CocktailDetailsResponse) :
    Except ServiceError Record :=
  match upstream with
  | .ok resp =>
    match resp.drink with
    | some d => .ok d
    | none => .error (.notFound ("Cocktail with ID " ++ toString id ++ " not found"))
  | .httpError status =>
    .error (.fetchFailed ("HTTP error! status: " ++ toString status))
  | .networkFailure msg => .error (.fetchFailed msg)

/-! ### Proxy list endpoints (`server/index.js`)

`/api/search` (lines 160-233) and `/api/search/letter` (lines 662-709)
paginate the full upstream list with `Array.prototype.slice` and report
`totalCount` and a `pagination` block.  Per-item reshaping preserves count
and order, so items stay abstract records. -/

/-- Clamp one JS `slice` bound to the array: a negative bound counts from
the end, a positive one is capped at the length. -/
def jsSliceBound (len : Nat) (i : Int) : Nat :=
  if i < 0 then (max ((len : Int) + i) 0).toNat else min i.toNat len

/-- Embedding of `Array.prototype.slice(start, stop)`. -/
def jsSlice (l : List α) (start stop : Int) : List α :=
  (l.take (jsSliceBound l.length stop)).drop (jsSliceBound l.length start)

/-- JS `Math.floor(a / b)` on integers: floor division. -/
def jsFloorDiv (a b : Int) : Int := Int.fdiv a b

/-- JS `Math.ceil(a / b)` on integers: ceiling division. -/
def jsCeilDiv (a b : Int) : Int := -(Int.fdiv (-a) b)

/-- The response envelope of the proxy list endpoints. -/
structure ListEnvelope where
  drinks : List Record
  totalCount : Int
  pagination : PaginationBlock
deriving DecidableEq, Repr

/-- Embedding of the `/api/search` handler (`server/index.js` lines
160-233) after the upstream fetch settles with `data.drinks`
(`none` models a null `drinks` field, which returns the empty
envelope). -/
def searchEndpoint (upstreamDrinks : Option (List Record)) (index limit : Int) :
    ListEnvelope :=
  match upstreamDrinks with
  | none =>
    { drinks := []
      totalCount := 0
      pagination :=
        { currentPage := 0, totalPages := 0, pageSize := limit
          startIndex := index, endIndex := index, hasMore := false } }
  | some drinks =>
    let startIdx := index
    let endIdx := startIdx + limit
    { drinks := jsSlice drinks startIdx endIdx
      totalCount := (drinks.length : Int)
      pagination :=
        { currentPage := jsFloorDiv startIdx limit
          totalPages := jsCeilDiv (drinks.length : Int) limit
          pageSize := limit
          startIndex := startIdx
          endIndex := endIdx
          hasMore := decide (endIdx < (drinks.length : Int)) } }

/-- Embedding of the `/api/search/letter` handler (`server/index.js`
lines 662-709): a null upstream `drinks` maps to the empty list, the
start bound is clamped to 0 and the end bound to `totalCount`. -/
def letterSearchEndpoint (upstreamDrinks : Option (List Record)) (index limit : Int) :
    ListEnvelope :=
  let allDrinks := upstreamDrinks.getD []
  let totalCount := (allDrinks.length : Int)
  let start := max 0 index
  let stop := min (start + limit) totalCount
  { drinks := jsSlice allDrinks start stop
    totalCount := totalCount
    pagination :=
      { currentPage := jsFloorDiv start limit
        totalPages := jsCeilDiv totalCount limit
        pageSize := limit
        startIndex := start
        endIndex := stop - 1
        hasMore := decide (stop < totalCount) } }

/-! ### Concrete fixtures used by counterexamples and witnesses -/

/-- A concrete record. -/
def recMargarita : Record := { id := 11007, name := "Margarita" }

/-- Another concrete record. -/
def recMojito : Record := { id := 11000, name := "Mojito" }

/-- A successful response carrying one drink (generation G1 in the race
scenarios). -/
def respG1 : FilteredResponse :=
  { drinks := some [recMargarita], totalCount := some 1, pagination := none }

/-- A successful response carrying a different drink (generation G2). -/
def respG2 : FilteredResponse :=
  { drinks := some [recMojito], totalCount := some 1, pagination := none }

/-- The component state after the out-of-order race: fetch G1 issued,
fetch G2 issued while G1 is in flight, G2 settles first, G1 settles
last. -/
def raceFinal : HomeState :=
  applySettled (applySettled (fetchStart (fetchStart (decode [])))
    (.success respG2)) (.success respG1)

/-- The state after G2 settles, before the stale G1 response arrives. -/
def raceAfterG2 : HomeState :=
  applySettled (fetchStart (fetchStart (decode []))) (.success respG2)

/-- C1. The generation-admission claim is false on the code: in the
overlapping-fetch race where G2 is issued after G1 but G1s response
arrives last, the committed list is G1s (the stale one), not G2s, and
the stale settlement does change the state. -/
theorem claim1_counterexample :
    raceFinal.cocktails = [recMargarita] ∧
    raceFinal.cocktails ≠ [recMojito] ∧
    raceFinal ≠ raceAfterG2 := by
  decide

/-- C1 (amended). `Home.tsx` performs no generation admission: every
settled successful response with a present `drinks` field is committed
unconditionally, so the committed result is always that of the response
that settles last, regardless of issue order. -/
theorem claim1_amended (s : HomeState) (o : FetchOutcome) (r : FilteredResponse)
    (ds : List Record) (h : r.drinks = some ds) :
    (applySettled (applySettled s o) (.success r)).cocktails = ds := by
  simp [applySettled, h]

/-- C1 (amended) at the concrete race: G1 settling last is committed. -/
theorem claim1_amended_witness :
    (applySettled (applySettled (fetchStart (decode [])) (.success respG2))
      (.success respG1)).cocktails = [recMargarita] :=
  claim1_amended (fetchStart (decode [])) (.success respG2) respG1 [recMargarita] rfl

/-- A state in which one page has previously been fetched successfully. -/
def loadedState : HomeState :=
  applySettled (fetchStart (decode [])) (.success respG1)

/-- C2. The error-retention claim is false on the code: starting from a
state whose displayed page is non-empty, a failing fetch leaves an empty
list (the effect clears the list when it starts and the catch block
clears it again), so the previously committed page does not remain. -/
theorem claim2_counterexample :
    loadedState.cocktails = [recMargarita] ∧
    (applySettled (fetchStart loadedState) .failure).cocktails = [] ∧
    (applySettled (fetchStart loadedState) .failure).cocktails ≠
      loadedState.cocktails := by
  decide

/-- C2 (amended). After any failing fetch the displayed list is empty —
regardless of whether a page had previously loaded — so the empty
"no results" rendering is shown, never the stale page. -/
theorem claim2_amended (s : HomeState) :
    (applySettled (fetchStart s) .failure).cocktails = [] ∧
    (applySettled (fetchStart s) .failure).loading = false := by
  constructor <;> rfl

/-- A reachable state with both discriminators set: a filter select
followed by a search submit. -/
def bothActive : HomeState :=
  handleSearch (handleFilterChange (decode []) (some "filter/alcoholic")) "margarita"

/-- C4. The single-discriminator claim is false on the code: after a
filter select followed by a search submit, the free text and the category
filter are simultaneously active, because `handleSearch` does not clear
`activeFilter`. -/
theorem claim4_counterexample :
    Reachable bothActive ∧
    bothActive.query = "margarita" ∧
    bothActive.activeFilter = some "filter/alcoholic" := by
  refine ⟨Reachable.search _ _ (Reachable.filter _ _ (Reachable.mount [])), ?_, ?_⟩ <;>
    decide

/-- C4 (amended). Every filter select clears the free text (so at most
the category filter is active afterwards) and resets the offset to 0;
every search submit resets the offset to 0 but leaves a previously active
category filter in place, so both discriminators can be set after a
search that follows a filter. -/
theorem claim4_amended (s : HomeState) (v : String) (e : Option String) :
    (handleFilterChange s e).index = 0 ∧
    (handleFilterChange s e).query = "" ∧
    (handleSearch s v).index = 0 ∧
    (handleSearch s v).activeFilter = s.activeFilter :=
  ⟨rfl, rfl, rfl, rfl⟩

/-- A full page of exactly 10 records (`limit` many). -/
def tenDrinks : List Record :=
  [ { id := 1, name := "One" }, { id := 2, name := "Two" }
  , { id := 3, name := "Three" }, { id := 4, name := "Four" }
  , { id := 5, name := "Five" }, { id := 6, name := "Six" }
  , { id := 7, name := "Seven" }, { id := 8, name := "Eight" }
  , { id := 9, name := "Nine" }, { id := 10, name := "Ten" } ]

/-- A response with a full page of `limit` items and no pagination
block. -/
def respFullPageNoBlock : FilteredResponse :=
  { drinks := some tenDrinks, totalCount := some 25, pagination := none }

/-- The state after committing `respFullPageNoBlock`. -/
def fullPageState : HomeState :=
  applySettled (fetchStart (decode [])) (.success respFullPageNoBlock)

/-- C5. The hasMore-inference claim is false on the live page: committing
a response with no pagination block and exactly `limit` (= 10) items
leaves `hasMore = false`, because `Home.tsx` takes
`results.pagination?.hasMore || false` and never infers from the item
count. -/
theorem claim5_counterexample :
    fullPageState.cocktails.length = 10 ∧
    fullPageState.limit = 10 ∧
    fullPageState.hasMore = false := by
  decide

/-- C5 (amended). The live `Home` sets `hasMore` to false for every
response without a pagination block, whatever the item count; the
count-based inference exists only in the draft `Home`, whose
`hasMore = (count >= limit)` is true at exactly `limit` items and false
below `limit`. -/
theorem claim5_amended :
    (∀ (s : HomeState) (r : FilteredResponse) (ds : List Record),
        r.pagination = none → r.drinks = some ds →
        (applySettled s (.success r)).hasMore = false) ∧
    (∀ (ds : List Record) (lim : Int),
        ((ds.length : Int) = lim → draftHasMore ds lim = true) ∧
        ((ds.length : Int) < lim → draftHasMore ds lim = false)) := by
  constructor
  · intro s r ds hp hd
    simp [applySettled, hd, hp]
  · intro ds lim
    constructor
    · intro h
      simp only [draftHasMore, decide_eq_true_eq]
      omega
    · intro h
      simp only [draftHasMore, decide_eq_false_iff_not, not_le]
      omega

/-- C5 (amended) evaluated concretely: a full page of 10 items with no
pagination block yields `hasMore = false` on the live page, while the
draft infers true at exactly 10 items and false at fewer than 12. -/
theorem claim5_amended_witness :
    (applySettled (fetchStart (decode []))
      (.success respFullPageNoBlock)).hasMore = false ∧
    draftHasMore tenDrinks 10 = true ∧
    draftHasMore tenDrinks 12 = false :=
  ⟨claim5_amended.1 (fetchStart (decode [])) respFullPageNoBlock tenDrinks rfl rfl,
   (claim5_amended.2 tenDrinks 10).1 (by decide),
   (claim5_amended.2 tenDrinks 12).2 (by decide)⟩

/-- C7. Previous never drives the offset negative — its result is exactly
`max 0 (offset - pageSize)` (for the no-op case this needs the page size
to be non-negative, which it is: `limit` is the constant 10) — and Next
is a no-op whenever `hasMore` is false, because the Next button is
rendered disabled. -/
theorem claim7_offset_bounds (s : HomeState) (hlim : 0 ≤ s.limit) :
    0 ≤ (stepPrev s).index ∧
    (stepPrev s).index = max 0 (s.index - s.limit) ∧
    (s.hasMore = false → stepNext s = s) := by
  refine ⟨?_, ?_, ?_⟩
  · unfold stepPrev
    split
    · next h => rw [h]
    · exact le_max_left 0 _
  · unfold stepPrev
    split
    · next h =>
      show s.index = max 0 (s.index - s.limit)
      rw [h]
      omega
    · rfl
  · intro h
    unfold stepNext
    rw [h]
    simp

/-- C7 at a concrete state whose `hasMore` is false: Previous stays
non-negative and Next is a no-op. -/
theorem claim7_offset_bounds_witness :
    0 ≤ (stepPrev fullPageState).index ∧
    stepNext fullPageState = fullPageState :=
  ⟨(claim7_offset_bounds fullPageState (by decide)).1,
   (claim7_offset_bounds fullPageState (by decide)).2.2 (by decide)⟩

theorem buildUrl_append_tail (b : String) (p : SearchParams) :
    ∃ t, buildUrl b p = b ++ t := by
  unfold buildUrl
  split
  · exact ⟨"", (String.append_empty b).symm⟩
  · exact ⟨"?" ++ buildQueryString p, String.append_assoc b "?" (buildQueryString p)⟩

/-- C6. Letter validation fails fast: any input whose length differs from
one is rejected with the validation error and no network request exists;
a single-character input issues exactly one request, against the
letter-search endpoint. -/
theorem claim6_letter_validation (letter : String) (index limit : Int) :
    (letter.length ≠ 1 →
      fetchCocktailsByLetter letter index limit =
        .error "Letter parameter must be a single character" ∧
      letterNetworkCalls letter index limit = []) ∧
    (letter.length = 1 →
      (letterNetworkCalls letter index limit).length = 1 ∧
      ∃ tail, letterNetworkCalls letter index limit =
        [apiBaseUrl ++ "/search/letter" ++ tail]) := by
  constructor
  · intro h
    simp [fetchCocktailsByLetter, letterNetworkCalls, h]
  · intro h
    obtain ⟨t, ht⟩ := buildUrl_append_tail (apiBaseUrl ++ "/search/letter")
      { firstLetter := some letter.toLower, index := some index, limit := some limit }
    refine ⟨?_, t, ?_⟩ <;>
      simp [fetchCocktailsByLetter, letterNetworkCalls, h, ht]

/-- C6 evaluated concretely: `"ab"` is rejected before any request, `"a"`
issues exactly one request. -/
theorem claim6_letter_validation_witness :
    fetchCocktailsByLetter "ab" 0 10 =
      .error "Letter parameter must be a single character" ∧
    (letterNetworkCalls "a" 0 10).length = 1 :=
  ⟨((claim6_letter_validation "ab" 0 10).1 (by decide)).1,
   ((claim6_letter_validation "a" 0 10).2 (by decide)).1⟩

/-- A response whose `totalCount` is absent but whose page is non-empty
(and which even reports `hasMore`). -/
def respUnknownTotal : FilteredResponse :=
  { drinks := some [recMargarita]
    totalCount := none
    pagination := some
      { currentPage := 0, totalPages := 0, pageSize := 10
        startIndex := 0, endIndex := 10, hasMore := true } }

/-- The state after committing `respUnknownTotal`. -/
def unknownTotalState : HomeState :=
  applySettled (fetchStart (decode [])) (.success respUnknownTotal)

/-- C8. The showControls claim is false on the code: with a non-empty
page and an unknown `totalCount` the controls must be shown per the
claim, but `showPagination` computes `totalCount > limit`, which in JS is
false for an undefined `totalCount`, so the controls are hidden. -/
theorem claim8_counterexample :
    0 < unknownTotalState.cocktails.length ∧
    unknownTotalState.totalCount = none ∧
    showPagination unknownTotalState = false := by
  decide

/-- C8 (amended). Pagination controls are shown iff the displayed list is
non-empty and `totalCount` is known and strictly greater than the page
size; an unknown `totalCount` always hides the controls. -/
theorem claim8_amended (s : HomeState) :
    showPagination s = true ↔
      (s.cocktails ≠ [] ∧ ∃ t, s.totalCount = some t ∧ s.limit < t) := by
  unfold showPagination jsGtOptInt
  cases h : s.totalCount <;>
    simp [h, Bool.and_eq_true, List.length_pos_iff_ne_nil]

/-- C9. A well-formed detail answer carrying a null `drink` surfaces as
the specific not-found error whose message contains the requested id, and
never as the `fetchFailed` transport error. -/
theorem claim9_notfound (id : Int) (resp : CocktailDetailsResponse)
    (h : resp.drink = none) :
    fetchCocktailById id (.ok resp) =
      .error (.notFound ("Cocktail with ID " ++ toString id ++ " not found")) ∧
    (∃ pre post,
      "Cocktail with ID " ++ toString id ++ " not found" =
        pre ++ toString id ++ post) ∧
    ∀ m, fetchCocktailById id (.ok resp) ≠ .error (.fetchFailed m) := by
  refine ⟨by simp [fetchCocktailById, h], ⟨"Cocktail with ID ", " not found", rfl⟩, ?_⟩
  intro m hc
  simp [fetchCocktailById, h] at hc

/-- C9 at id 99999: the not-found error message carries `99999`. -/
theorem claim9_notfound_witness :
    fetchCocktailById 99999 (.ok { drink := none }) =
      .error (.notFound ("Cocktail with ID " ++ toString (99999 : Int) ++ " not found")) ∧
    toString (99999 : Int) = "99999" :=
  ⟨(claim9_notfound 99999 { drink := none } rfl).1, by decide⟩

/-! ### URL round-trip (C3)

`Home` mirrors only the free text into the URL: `handleSearch` writes
`{ q: term }` or `{}`, `handleFilterChange` writes `{}`, and the
pagination handlers never touch the URL.  The invariant below records
what the URL can therefore contain in any reachable state. -/

/-- URL invariant of reachable states: the stored query is trimmed, and
the `q` parameter is exactly the stored query when the latter is
non-empty, and absent or empty otherwise. -/
def UrlInv (s : HomeState) : Prop :=
  jsTrim s.query = s.query ∧
  (if s.query = "" then
    getParam s.urlParams "q" = none ∨ getParam s.urlParams "q" = some ""
  else getParam s.urlParams "q" = some s.query)

theorem urlInv_handleSearch (s : HomeState) (v : String) :
    UrlInv (handleSearch s v) := by
  unfold UrlInv handleSearch
  constructor
  · exact jsTrim_jsTrim v
  · by_cases h : jsTrim v = "" <;> simp [h, getParam]

theorem urlInv_handleFilterChange (s : HomeState) (e : Option String) :
    UrlInv (handleFilterChange s e) := by
  unfold UrlInv handleFilterChange
  exact ⟨rfl, by simp [getParam]⟩

theorem urlInv_congr (s t : HomeState) (hq : t.query = s.query)
    (hu : t.urlParams = s.urlParams) (h : UrlInv s) : UrlInv t := by
  unfold UrlInv at h ⊢
  rw [hq, hu]
  exact h

theorem mountEffect_eq_none (s : HomeState)
    (h : getParam s.urlParams "q" = none) :
    mountEffect s = { s with isDefaultView := true, query := "" } := by
  unfold mountEffect
  rw [h]

theorem mountEffect_eq_some (s : HomeState) (q : String)
    (h : getParam s.urlParams "q" = some q) :
    mountEffect s =
      if q = "" then { s with isDefaultView := true, query := "" }
      else { handleSearch s q with isDefaultView := false } := by
  unfold mountEffect
  rw [h]

theorem urlInv_decode (params : List (String × String)) :
    UrlInv (decode params) := by
  unfold decode
  cases hq : getParam params "q" with
  | none =>
    rw [mountEffect_eq_none (initialState params) hq]
    refine ⟨rfl, ?_⟩
    rw [if_pos rfl]
    exact Or.inl hq
  | some q =>
    rw [mountEffect_eq_some (initialState params) q hq]
    by_cases hqe : q = ""
    · rw [if_pos hqe]
      refine ⟨rfl, ?_⟩
      rw [if_pos rfl]
      exact Or.inr (hqe ▸ hq)
    · rw [if_neg hqe]
      exact urlInv_congr (handleSearch (initialState params) q) _ rfl rfl
        (urlInv_handleSearch (initialState params) q)

theorem stepNext_query_urlParams (s : HomeState) :
    (stepNext s).query = s.query ∧ (stepNext s).urlParams = s.urlParams := by
  unfold stepNext
  split <;> exact ⟨rfl, rfl⟩

theorem stepPrev_query_urlParams (s : HomeState) :
    (stepPrev s).query = s.query ∧ (stepPrev s).urlParams = s.urlParams := by
  unfold stepPrev
  split <;> exact ⟨rfl, rfl⟩

theorem applySettled_query_urlParams (s : HomeState) (o : FetchOutcome) :
    (applySettled s o).query = s.query ∧
    (applySettled s o).urlParams = s.urlParams := by
  cases o with
  | success r => cases h : r.drinks <;> simp [applySettled, h]
  | failure => exact ⟨rfl, rfl⟩

theorem reachable_urlInv (s : HomeState) (h : Reachable s) : UrlInv s := by
  induction h with
  | mount params => exact urlInv_decode params
  | search t v _ _ => exact urlInv_handleSearch t v
  | filter t e _ _ => exact urlInv_handleFilterChange t e
  | next t _ ih =>
    exact urlInv_congr t (stepNext t) (stepNext_query_urlParams t).1
      (stepNext_query_urlParams t).2 ih
  | prev t _ ih =>
    exact urlInv_congr t (stepPrev t) (stepPrev_query_urlParams t).1
      (stepPrev_query_urlParams t).2 ih
  | fetchStarted t _ ih => exact urlInv_congr t (fetchStart t) rfl rfl ih
  | settled t o _ ih =>
    exact urlInv_congr t (applySettled t o) (applySettled_query_urlParams t o).1
      (applySettled_query_urlParams t o).2 ih

/-- A reachable state with an active category filter, whose URL mirror is
empty. -/
def filteredState : HomeState :=
  handleFilterChange (decode []) (some "filter/alcoholic")

/-- C3. The round-trip claim is false on the code: the state reached by a
filter select has an active category filter, but the URL written for it
is empty, so decoding it loses the discriminator (and likewise the
offset, which is never written to the URL). -/
theorem claim3_counterexample :
    Reachable filteredState ∧
    (decode filteredState.urlParams).viewQuery ≠ filteredState.viewQuery := by
  refine ⟨Reachable.filter _ _ (Reachable.mount []), ?_⟩
  decide

/-- C3 (amended). Only the free text round-trips through the URL: for
every reachable state, decoding the URL it wrote reproduces the free
text exactly but always yields offset 0 and no category filter, because
neither the offset nor the filter is ever encoded. -/
theorem claim3_amended (s : HomeState) (hs : Reachable s) :
    (decode s.urlParams).viewQuery =
      { freeText := s.query, categoryFilter := none, offset := 0 } := by
  obtain ⟨htrim, hbranch⟩ := reachable_urlInv s hs
  unfold decode
  by_cases hq : s.query = ""
  · rw [if_pos hq] at hbranch
    rcases hbranch with h | h
    · rw [mountEffect_eq_none (initialState s.urlParams) h, hq]
      rfl
    · rw [mountEffect_eq_some (initialState s.urlParams) "" h, if_pos rfl, hq]
      rfl
  · rw [if_neg hq] at hbranch
    rw [mountEffect_eq_some (initialState s.urlParams) s.query hbranch, if_neg hq]
    show ViewQuery.mk (jsTrim s.query) none 0 =
      ViewQuery.mk s.query none 0
    rw [htrim]

/-- C3 (amended) at a concrete reachable state. -/
theorem claim3_amended_witness :
    (decode (decode []).urlParams).viewQuery =
      { freeText := (decode []).query, categoryFilter := none, offset := 0 } :=
  claim3_amended (decode []) (Reachable.mount [])

theorem jsSliceBound_min_len (len : Nat) (b : Int) (hb : 0 ≤ b) :
    jsSliceBound len (min b (len : Int)) = jsSliceBound len b := by
  unfold jsSliceBound
  have h1 : ¬ (min b (len : Int) < 0) := by omega
  have h2 : ¬ (b < 0) := by omega
  rw [if_neg h1, if_neg h2]
  omega

theorem jsSlice_length_le (l : List α) (a lim : Int) (ha : 0 ≤ a)
    (hl : 0 ≤ lim) : ((jsSlice l a (a + lim)).length : Int) ≤ lim := by
  unfold jsSlice jsSliceBound
  have h0 : ¬ (a < 0) := by omega
  have h1 : ¬ (a + lim < 0) := by omega
  rw [if_neg h1, if_neg h0]
  rw [List.length_drop, List.length_take]
  omega

/-- C10. Both proxy list endpoints return the `slice` of the full
upstream list starting at `index` — hence at most `limit` items — report
`totalCount` as the full list length, and set `pagination.hasMore` true
exactly when `index + limit` is strictly below `totalCount`. -/
theorem claim10_proxy_pagination (l : List Record) (index limit : Int)
    (hidx : 0 ≤ index) (hlim : 0 < limit) :
    ((searchEndpoint (some l) index limit).drinks =
        jsSlice l index (index + limit) ∧
      ((searchEndpoint (some l) index limit).drinks.length : Int) ≤ limit ∧
      (searchEndpoint (some l) index limit).totalCount = (l.length : Int) ∧
      ((searchEndpoint (some l) index limit).pagination.hasMore = true ↔
        index + limit < (l.length : Int))) ∧
    ((letterSearchEndpoint (some l) index limit).drinks =
        jsSlice l index (index + limit) ∧
      ((letterSearchEndpoint (some l) index limit).drinks.length : Int) ≤ limit ∧
      (letterSearchEndpoint (some l) index limit).totalCount = (l.length : Int) ∧
      ((letterSearchEndpoint (some l) index limit).pagination.hasMore = true ↔
        index + limit < (l.length : Int))) := by
  have hmax : max 0 index = index := max_eq_right hidx
  have hdrinks : (letterSearchEndpoint (some l) index limit).drinks =
      jsSlice l index (index + limit) := by
    show jsSlice l (max 0 index) (min (max 0 index + limit) (l.length : Int)) =
      jsSlice l index (index + limit)
    rw [hmax]
    unfold jsSlice
    rw [jsSliceBound_min_len l.length (index + limit) (by omega)]
  refine ⟨⟨rfl, ?_, rfl, ?_⟩, ⟨hdrinks, ?_, ?_, ?_⟩⟩
  · exact jsSlice_length_le l index limit hidx (le_of_lt hlim)
  · show decide (index + limit < (l.length : Int)) = true ↔
      index + limit < (l.length : Int)
    exact decide_eq_true_iff
  · rw [hdrinks]
    exact jsSlice_length_le l index limit hidx (le_of_lt hlim)
  · show ((l.length : Nat) : Int) = (l.length : Int)
    rfl
  · show decide (min (max 0 index + limit) (l.length : Int) < (l.length : Int)) = true ↔
      index + limit < (l.length : Int)
    rw [hmax, decide_eq_true_iff]
    omega

/-- Items for the C10 witness. -/
def demoDrinks : List Record :=
  [recMargarita, recMojito, { id := 11001, name := "Old Fashioned" }]

/-- C10 at a concrete page: three upstream items, page size two. -/
theorem claim10_proxy_pagination_witness :
    (searchEndpoint (some demoDrinks) 0 2).totalCount = (demoDrinks.length : Int) ∧
    ((letterSearchEndpoint (some demoDrinks) 0 2).pagination.hasMore = true ↔
      (0 : Int) + 2 < (demoDrinks.length : Int)) :=
  ⟨(claim10_proxy_pagination demoDrinks 0 2 (by decide) (by decide)).1.2.2.1,
   (claim10_proxy_pagination demoDrinks 0 2 (by decide) (by decide)).2.2.2.2⟩

end Cocktails
